import Mathlib

/-!
Verification of the keep_active repository against its specification.

The development shallowly embeds the Python sources:
  * `src/keep_active/mouse.py`      — `Position`, `ScreenSize` value objects;
  * `src/keep_active/config.py`     — `KeepActiveConfig` with `__post_init__`
    validation and `get_random_wait_time`;
  * `src/keep_active/controller.py` — `KeepActiveController` (`_setup`,
    `_calculate_target_position`, `_perform_activity`, `_run_iteration`,
    `run`, `stop`);
  * `src/main.py`                   — the legacy single-function variant.

Side effects are modelled as an event trace.  The capability provider is a
pure `MouseModel` (a stream of cursor positions plus a screen size), the
random source is an injected `randint` oracle stream, `time.sleep` and
`print` become trace events, and Python floats are embedded as rationals
(the program only compares them to zero and passes them through).

Exceptions raised by collaborators are modelled by an oracle `exc` that is
consulted once per loop iteration: `exc i = some e` means an exception `e`
surfaces while iteration `i + 1` is executing (before that iteration's
effects in this model; the claims settled here depend only on which handler
receives the exception, not on where inside the iteration it was raised).
Cooperative cancellation is modelled by a schedule `stopAt`: `stopAt i`
means `stop()` is invoked by another actor while iteration `i + 1` is in
flight, so the flag is observed false at the next loop-head check.  The
`while` loop itself is driven by fuel: a `none` outcome means the run was
still going when the fuel ran out (only possible for unbounded runs).
-/

/-- Embeds `Position` from `src/keep_active/mouse.py`: a 2D screen position. -/
structure Position where
  x : ℤ
  y : ℤ
deriving DecidableEq, Repr

/-- Embeds `Position.__str__`: renders as `"(x, y)"`. -/
def Position.str (p : Position) : String :=
  "(" ++ toString p.x ++ ", " ++ toString p.y ++ ")"

/-- Embeds `ScreenSize` from `src/keep_active/mouse.py`. -/
structure ScreenSize where
  width : ℤ
  height : ℤ
deriving DecidableEq, Repr

/-- Embeds `ScreenSize.center`: Python `//` is floor division, hence `Int.fdiv`. -/
def ScreenSize.center (s : ScreenSize) : Position :=
  { x := s.width.fdiv 2, y := s.height.fdiv 2 }

/-- The capability provider (`MouseOperations`) as a pure model: the stream of
positions successive `get_position()` calls return, and the screen size
`get_screen_size()` reports.  A provider modelled this way never raises. -/
structure MouseModel where
  posStream : ℕ → Position
  screen : ScreenSize

/-- Embeds `KeepActiveConfig` from `src/keep_active/config.py` (the raw field
carrier of the dataclass; `__post_init__` validation is `KeepActiveConfig.mk?`). -/
structure KeepActiveConfig where
  min_wait_seconds : ℤ
  max_wait_seconds : ℤ
  mouse_move_duration : ℚ
  post_click_pause : ℚ
  enable_failsafe : Bool
  use_screen_center : Bool
  verbose : Bool
deriving DecidableEq, Repr

/-- Embeds dataclass construction followed by `KeepActiveConfig.__post_init__`:
each `raise ValueError(...)` becomes an `Except.error` carrying the message, in
the source's check order; on success the frozen instance is returned. -/
def KeepActiveConfig.mk? (minW maxW : ℤ) (mmd pcp : ℚ)
    (ef usc vb : Bool) : Except String KeepActiveConfig :=
  if minW < 0 then Except.error "min_wait_seconds cannot be negative"
  else if maxW < 0 then Except.error "max_wait_seconds cannot be negative"
  else if mmd < 0 then Except.error "mouse_move_duration cannot be negative"
  else if pcp < 0 then Except.error "post_click_pause cannot be negative"
  else if minW > maxW then
    Except.error ("min_wait_seconds (" ++ toString minW ++
      ") cannot be greater than max_wait_seconds (" ++ toString maxW ++ ")")
  else Except.ok
    { min_wait_seconds := minW, max_wait_seconds := maxW,
      mouse_move_duration := mmd, post_click_pause := pcp,
      enable_failsafe := ef, use_screen_center := usc, verbose := vb }

/-- Whether dataclass construction succeeded (an instance exists). -/
def configOk (e : Except String KeepActiveConfig) : Bool :=
  match e with
  | Except.ok _ => true
  | Except.error _ => false

/-- Auxiliary substring search over character lists. -/
def containsAux (pat : List Char) : List Char → Bool
  | [] => pat.isPrefixOf []
  | c :: cs => pat.isPrefixOf (c :: cs) || containsAux pat cs

/-- `strContains s pat` holds when `pat` occurs inside `s`. -/
def strContains (s pat : String) : Bool :=
  containsAux pat.toList s.toList

/-- Whether construction failed with a message containing `pat`. -/
def errContains (e : Except String KeepActiveConfig) (pat : String) : Bool :=
  match e with
  | Except.ok _ => false
  | Except.error m => strContains m pat

/-- Embeds `KeepActiveConfig.get_random_wait_time`, with `random.randint`
injected as an oracle: the method returns `randint(min_wait_seconds,
max_wait_seconds)`. -/
def KeepActiveConfig.get_random_wait_time (cfg : KeepActiveConfig)
    (randint : ℤ → ℤ → ℤ) : ℤ :=
  randint cfg.min_wait_seconds cfg.max_wait_seconds

/-- The contract of Python's `random.randint a b` for `a ≤ b`: the result lies
in the inclusive range `[a, b]`. -/
def RandintOk (r : ℤ → ℤ → ℤ) : Prop :=
  ∀ a b : ℤ, a ≤ b → a ≤ r a b ∧ r a b ≤ b

/-- The default configuration `KeepActiveConfig()` of the dataclass. -/
def defaultConfig : KeepActiveConfig :=
  { min_wait_seconds := 30, max_wait_seconds := 60,
    mouse_move_duration := 1/2, post_click_pause := 1/2,
    enable_failsafe := true, use_screen_center := true, verbose := true }

/-- Observable effects of the program, in order of occurrence. -/
inductive Event where
  | setFailsafe (enabled : Bool)
  | print (line : String)
  | queryPos
  | querySize
  | sleep (seconds : ℚ)
  | moveTo (target : Position) (duration : ℚ)
  | doubleClick
deriving DecidableEq, Repr

/-- An exception surfaced by a collaborator during an iteration. -/
inductive PyExc where
  | keyboardInterrupt
  | other (msg : String)
deriving DecidableEq, Repr

/-- How a `run()` invocation ended: a normal return, or process termination
through `sys.exit code`. -/
inductive RunOutcome where
  | normal
  | exited (code : ℕ)
deriving DecidableEq, Repr

/-- Controller run state: the `_running` flag and `_iteration` counter. -/
structure CtrlState where
  running : Bool
  iteration : ℕ
deriving DecidableEq, Repr

/-- Collaborators that never raise. -/
def noExc : ℕ → Option PyExc := fun _ => none

/-- A schedule on which `stop()` is never called. -/
def noStop : ℕ → Bool := fun _ => false

namespace KeepActiveController

/-- Embeds `KeepActiveController._log`: prints only when `verbose` is set. -/
def logEvents (cfg : KeepActiveConfig) (message : String) : List Event :=
  if cfg.verbose then [Event.print message] else []

/-- Embeds `KeepActiveController._setup`: propagate the failsafe flag to the
provider, then emit the banner diagnostics (`"-" * 40` is 40 dashes). -/
def setupEvents (cfg : KeepActiveConfig) : List Event :=
  Event.setFailsafe cfg.enable_failsafe ::
    (logEvents cfg "Keep Active Script Started" ++
     logEvents cfg "Press Ctrl+C to stop" ++
     logEvents cfg (String.mk (List.replicate 40 '-')))

/-- Embeds `KeepActiveController._calculate_target_position`: query the screen
size and return its center. -/
def calculate_target_position (mouse : MouseModel) : Position :=
  mouse.screen.center

/-- Embeds `KeepActiveController._perform_activity` for the activity cycle
following iteration count `i`: query the cursor position (the `i`-th
`get_position()` call), query the screen size, log, move, log, double-click,
pause. -/
def perform_activity (cfg : KeepActiveConfig) (mouse : MouseModel)
    (i : ℕ) : List Event :=
  let current_pos := mouse.posStream i
  let target_pos := calculate_target_position mouse
  Event.queryPos :: Event.querySize ::
    (logEvents cfg ("Moving mouse from " ++ current_pos.str ++ " to " ++ target_pos.str) ++
     (Event.moveTo target_pos cfg.mouse_move_duration ::
      (logEvents cfg "Double clicking..." ++
       [Event.doubleClick, Event.sleep cfg.post_click_pause])))

/-- Embeds `KeepActiveController._run_iteration` entered with `_iteration = i`:
increment the counter to `i + 1`, draw the wait time, log, sleep, perform the
activity cycle. -/
def run_iteration (cfg : KeepActiveConfig) (mouse : MouseModel)
    (randint : ℕ → ℤ → ℤ → ℤ) (i : ℕ) : List Event :=
  let n := i + 1
  let wait_time := cfg.get_random_wait_time (randint i)
  logEvents cfg ("\n[" ++ toString n ++ "] Waiting " ++ toString wait_time ++ " seconds...") ++
    (Event.sleep (wait_time : ℚ) :: perform_activity cfg mouse i)

/-- What the `except` clauses of `run` log for each exception. -/
def excEvents (cfg : KeepActiveConfig) : PyExc → List Event
  | PyExc.keyboardInterrupt => logEvents cfg "\n\nScript stopped by user"
  | PyExc.other msg => logEvents cfg ("\nError: " ++ msg)

/-- The `sys.exit` status each `except` clause of `run` uses. -/
def excOutcome : PyExc → RunOutcome
  | PyExc.keyboardInterrupt => RunOutcome.exited 0
  | PyExc.other _ => RunOutcome.exited 1

/-- Embeds the `while self._running:` loop of `KeepActiveController.run`
together with its surrounding `try`/`except`.  Each pass: re-check the flag
(exiting the loop returns normally); consult the exception oracle for the
iteration about to execute (a hit transfers control to the matching handler);
otherwise run the iteration, apply any `stop()` delivered during it, and
check the `max_iterations` bound (`_iteration >= max_iterations` on Python
ints).  Fuel only bounds how many passes are modelled. -/
def runLoop (cfg : KeepActiveConfig) (mouse : MouseModel)
    (randint : ℕ → ℤ → ℤ → ℤ) (exc : ℕ → Option PyExc) (stopAt : ℕ → Bool)
    (maxIter : Option ℤ) :
    ℕ → CtrlState → List Event × Option RunOutcome × CtrlState
  | 0, s =>
    if s.running then ([], none, s) else ([], some RunOutcome.normal, s)
  | fuel + 1, s =>
    if s.running then
      match exc s.iteration with
      | some e => (excEvents cfg e, some (excOutcome e), s)
      | none =>
        let evs := run_iteration cfg mouse randint s.iteration
        let s' : CtrlState :=
          { running := s.running && !(stopAt s.iteration),
            iteration := s.iteration + 1 }
        match maxIter with
        | some m =>
          if m ≤ (s'.iteration : ℤ) then
            (evs ++ logEvents cfg ("\nCompleted " ++ toString m ++ " iterations"),
             some RunOutcome.normal, s')
          else
            let r := runLoop cfg mouse randint exc stopAt (some m) fuel s'
            (evs ++ r.1, r.2.1, r.2.2)
        | none =>
          let r := runLoop cfg mouse randint exc stopAt none fuel s'
          (evs ++ r.1, r.2.1, r.2.2)
    else ([], some RunOutcome.normal, s)

/-- Embeds `KeepActiveController.run`: set `_running = True`, reset
`_iteration = 0` (whatever state `s0` the controller was in), perform setup,
then enter the guarded loop. -/
def run (cfg : KeepActiveConfig) (mouse : MouseModel)
    (randint : ℕ → ℤ → ℤ → ℤ) (exc : ℕ → Option PyExc) (stopAt : ℕ → Bool)
    (max_iterations : Option ℤ) (fuel : ℕ) (_s0 : CtrlState) :
    List Event × Option RunOutcome × CtrlState :=
  (setupEvents cfg ++
     (runLoop cfg mouse randint exc stopAt max_iterations fuel
       { running := true, iteration := 0 }).1,
   (runLoop cfg mouse randint exc stopAt max_iterations fuel
     { running := true, iteration := 0 }).2)

/-- Embeds `KeepActiveController.stop`: clear the `_running` flag. -/
def stop (s : CtrlState) : CtrlState :=
  { running := false, iteration := s.iteration }

end KeepActiveController

namespace LegacyMain

/-- Embeds one pass of the `while True:` loop body of `main` in `src/main.py`,
entered with `iteration = i` before the increment: print, sleep a
`randint(30, 60)` draw, query position and screen size, print, move to
`(width // 2, height // 2)` over 0.5 seconds, print, double-click, sleep 0.5. -/
def mainIterEvents (mouse : MouseModel) (randint : ℕ → ℤ → ℤ → ℤ)
    (i : ℕ) : List Event :=
  let iteration := i + 1
  let wait_time := randint i 30 60
  let current := mouse.posStream i
  let target_x := mouse.screen.width.fdiv 2
  let target_y := mouse.screen.height.fdiv 2
  Event.print ("\n[" ++ toString iteration ++ "] Waiting " ++ toString wait_time ++ " seconds...") ::
    Event.sleep (wait_time : ℚ) :: Event.queryPos :: Event.querySize ::
    Event.print ("Moving mouse from (" ++ toString current.x ++ ", " ++ toString current.y ++
      ") to (" ++ toString target_x ++ ", " ++ toString target_y ++ ")") ::
    Event.moveTo { x := target_x, y := target_y } (1/2) ::
    Event.print "Double clicking..." ::
    Event.doubleClick :: [Event.sleep (1/2)]

/-- Embeds the `while True:` loop of `main` with its `try`/`except`, at the
same iteration granularity as the controller model. -/
def mainLoop (mouse : MouseModel) (randint : ℕ → ℤ → ℤ → ℤ)
    (exc : ℕ → Option PyExc) : ℕ → ℕ → List Event × Option RunOutcome
  | 0, _ => ([], none)
  | fuel + 1, i =>
    match exc i with
    | some PyExc.keyboardInterrupt =>
      ([Event.print "\n\nScript stopped by user"], some (RunOutcome.exited 0))
    | some (PyExc.other msg) =>
      ([Event.print ("\nError: " ++ msg)], some (RunOutcome.exited 1))
    | none =>
      let evs := mainIterEvents mouse randint i
      let r := mainLoop mouse randint exc fuel (i + 1)
      (evs ++ r.1, r.2)

/-- Embeds `main` from `src/main.py`: print the banner, enable the failsafe,
then loop. -/
def main (mouse : MouseModel) (randint : ℕ → ℤ → ℤ → ℤ)
    (exc : ℕ → Option PyExc) (fuel : ℕ) : List Event × Option RunOutcome :=
  (Event.print "Keep Active Script Started" ::
     Event.print "Press Ctrl+C to stop" ::
     Event.print (String.mk (List.replicate 40 '-')) ::
     Event.setFailsafe true :: (mainLoop mouse randint exc fuel 0).1,
   (mainLoop mouse randint exc fuel 0).2)

end LegacyMain

/-- Recognizes `move_to` commands in a trace. -/
def isMoveTo : Event → Bool
  | Event.moveTo _ _ => true
  | _ => false

/-- Recognizes `double_click` commands in a trace. -/
def isDoubleClick : Event → Bool
  | Event.doubleClick => true
  | _ => false

/-- Number of `move_to` commands in a trace. -/
def countMoves (t : List Event) : ℕ :=
  (t.filter isMoveTo).length

/-- Number of `double_click` commands in a trace. -/
def countClicks (t : List Event) : ℕ :=
  (t.filter isDoubleClick).length

/-- The successive sleep durations of a trace. -/
def sleepsOf (t : List Event) : List ℚ :=
  t.filterMap fun e => match e with
    | Event.sleep q => some q
    | _ => none

/-- The successive output lines of a trace. -/
def printsOf (t : List Event) : List String :=
  t.filterMap fun e => match e with
    | Event.print s => some s
    | _ => none

/-- The successive `move_to` target positions of a trace. -/
def moveTargets (t : List Event) : List Position :=
  t.filterMap fun e => match e with
    | Event.moveTo p _ => some p
    | _ => none

/-- Recognizes commands addressed to the capability provider. -/
def isMouseCmd : Event → Bool
  | Event.print _ => false
  | Event.sleep _ => false
  | _ => true

/-- The subsequence of provider commands (queries included) of a trace. -/
def mouseCmdsOf (t : List Event) : List Event :=
  t.filter isMouseCmd

/-- Recognizes recorded effects: provider commands and sleeps, without the
position/size queries and without diagnostic output. -/
def isRecordedEffect : Event → Bool
  | Event.print _ => false
  | Event.queryPos => false
  | Event.querySize => false
  | _ => true

/-- The recorded effects of a trace, in order. -/
def recordedEffects (t : List Event) : List Event :=
  t.filter isRecordedEffect

namespace KeepActiveController

theorem filter_logEvents (cfg : KeepActiveConfig) (m : String) (p : Event → Bool)
    (h : p (Event.print m) = false) : (logEvents cfg m).filter p = [] := by
  unfold logEvents
  split <;> simp [h]

theorem filterMap_logEvents {α : Type} (cfg : KeepActiveConfig) (m : String)
    (f : Event → Option α) (h : f (Event.print m) = none) :
    (logEvents cfg m).filterMap f = [] := by
  unfold logEvents
  split <;> simp [h]

theorem filter_run_iteration_moveTo (cfg : KeepActiveConfig) (mouse : MouseModel)
    (randint : ℕ → ℤ → ℤ → ℤ) (i : ℕ) :
    (run_iteration cfg mouse randint i).filter isMoveTo =
      [Event.moveTo (calculate_target_position mouse) cfg.mouse_move_duration] := by
  unfold run_iteration perform_activity
  simp [List.filter_append, filter_logEvents, isMoveTo]

theorem countMoves_run_iteration (cfg : KeepActiveConfig) (mouse : MouseModel)
    (randint : ℕ → ℤ → ℤ → ℤ) (i : ℕ) :
    countMoves (run_iteration cfg mouse randint i) = 1 := by
  simp [countMoves, filter_run_iteration_moveTo]

theorem countClicks_run_iteration (cfg : KeepActiveConfig) (mouse : MouseModel)
    (randint : ℕ → ℤ → ℤ → ℤ) (i : ℕ) :
    countClicks (run_iteration cfg mouse randint i) = 1 := by
  unfold countClicks run_iteration perform_activity
  simp [List.filter_append, filter_logEvents, isDoubleClick]

theorem sleepsOf_run_iteration (cfg : KeepActiveConfig) (mouse : MouseModel)
    (randint : ℕ → ℤ → ℤ → ℤ) (i : ℕ) :
    sleepsOf (run_iteration cfg mouse randint i) =
      [((cfg.get_random_wait_time (randint i) : ℤ) : ℚ), cfg.post_click_pause] := by
  unfold sleepsOf run_iteration perform_activity
  simp [List.filterMap_append, filterMap_logEvents]

theorem moveTargets_run_iteration (cfg : KeepActiveConfig) (mouse : MouseModel)
    (randint : ℕ → ℤ → ℤ → ℤ) (i : ℕ) :
    moveTargets (run_iteration cfg mouse randint i) = [mouse.screen.center] := by
  unfold moveTargets run_iteration perform_activity
  simp [List.filterMap_append, filterMap_logEvents, calculate_target_position]

theorem countMoves_setupEvents (cfg : KeepActiveConfig) :
    countMoves (setupEvents cfg) = 0 := by
  unfold countMoves setupEvents
  simp [List.filter_append, filter_logEvents, isMoveTo]

theorem countClicks_setupEvents (cfg : KeepActiveConfig) :
    countClicks (setupEvents cfg) = 0 := by
  unfold countClicks setupEvents
  simp [List.filter_append, filter_logEvents, isDoubleClick]

theorem sleepsOf_setupEvents (cfg : KeepActiveConfig) :
    sleepsOf (setupEvents cfg) = [] := by
  unfold sleepsOf setupEvents
  simp [List.filterMap_append, filterMap_logEvents]

theorem moveTargets_setupEvents (cfg : KeepActiveConfig) :
    moveTargets (setupEvents cfg) = [] := by
  unfold moveTargets setupEvents
  simp [List.filterMap_append, filterMap_logEvents]

theorem recordedEffects_setupEvents (cfg : KeepActiveConfig) :
    recordedEffects (setupEvents cfg) = [Event.setFailsafe cfg.enable_failsafe] := by
  unfold recordedEffects setupEvents
  simp [List.filter_append, filter_logEvents, isRecordedEffect]

end KeepActiveController

/-- The concatenated events of `k` consecutive loop iterations entered with
iteration counter `base`. -/
def iterBlocks (cfg : KeepActiveConfig) (mouse : MouseModel)
    (randint : ℕ → ℤ → ℤ → ℤ) (base k : ℕ) : List Event :=
  ((List.range k).map
    (fun j => KeepActiveController.run_iteration cfg mouse randint (base + j))).flatten

theorem iterBlocks_zero (cfg : KeepActiveConfig) (mouse : MouseModel)
    (randint : ℕ → ℤ → ℤ → ℤ) (base : ℕ) :
    iterBlocks cfg mouse randint base 0 = [] := rfl

theorem iterBlocks_succ (cfg : KeepActiveConfig) (mouse : MouseModel)
    (randint : ℕ → ℤ → ℤ → ℤ) (base k : ℕ) :
    iterBlocks cfg mouse randint base (k + 1) =
      iterBlocks cfg mouse randint base k ++
        KeepActiveController.run_iteration cfg mouse randint (base + k) := by
  unfold iterBlocks
  rw [List.range_succ]
  simp

theorem iterBlocks_succ_front (cfg : KeepActiveConfig) (mouse : MouseModel)
    (randint : ℕ → ℤ → ℤ → ℤ) (base k : ℕ) :
    iterBlocks cfg mouse randint base (k + 1) =
      KeepActiveController.run_iteration cfg mouse randint base ++
        iterBlocks cfg mouse randint (base + 1) k := by
  unfold iterBlocks
  rw [List.range_succ_eq_map]
  simp only [List.map_cons, List.map_map, List.flatten_cons, Nat.add_zero]
  congr 1
  congr 1
  apply List.map_congr_left
  intro j _
  simp only [Function.comp_apply]
  congr 1
  omega

namespace KeepActiveController

theorem runLoop_halted (cfg : KeepActiveConfig) (mouse : MouseModel)
    (randint : ℕ → ℤ → ℤ → ℤ) (exc : ℕ → Option PyExc) (stopAt : ℕ → Bool)
    (maxIter : Option ℤ) (fuel : ℕ) (s : CtrlState) (h : s.running = false) :
    runLoop cfg mouse randint exc stopAt maxIter fuel s =
      ([], some RunOutcome.normal, s) := by
  cases fuel <;> simp [runLoop, h]

theorem runLoop_normal (cfg : KeepActiveConfig) (mouse : MouseModel)
    (randint : ℕ → ℤ → ℤ → ℤ) (n : ℕ) :
    ∀ fuel : ℕ, ∀ s : CtrlState, s.running = true → s.iteration < n →
    n ≤ s.iteration + fuel →
    runLoop cfg mouse randint noExc noStop (some (n : ℤ)) fuel s =
      (iterBlocks cfg mouse randint s.iteration (n - s.iteration) ++
         logEvents cfg ("\nCompleted " ++ toString (n : ℤ) ++ " iterations"),
       some RunOutcome.normal,
       { running := true, iteration := n }) := by
  intro fuel
  induction fuel with
  | zero =>
    intro s _ hlt hle
    omega
  | succ fuel ih =>
    intro s hrun hlt hle
    rw [runLoop]
    simp only [hrun, if_true, noExc, noStop, Bool.not_false, Bool.and_true]
    by_cases hend : s.iteration + 1 = n
    · have hge : (n : ℤ) ≤ ((s.iteration + 1 : ℕ) : ℤ) := by omega
      simp only [hge, if_true]
      have hk : n - s.iteration = 1 := by omega
      rw [hk]
      rw [iterBlocks_succ_front, iterBlocks_zero]
      simp [hend]
    · have hlt' : s.iteration + 1 < n := by omega
      have hge : ¬ ((n : ℤ) ≤ ((s.iteration + 1 : ℕ) : ℤ)) := by
        push_cast
        omega
      simp only [hge, if_false]
      rw [ih { running := true, iteration := s.iteration + 1 } rfl hlt'
        (show n ≤ s.iteration + 1 + fuel by omega)]
      simp only []
      have hk : n - s.iteration = (n - (s.iteration + 1)) + 1 := by omega
      rw [hk, iterBlocks_succ_front]
      simp

end KeepActiveController

theorem countMoves_append (a b : List Event) :
    countMoves (a ++ b) = countMoves a + countMoves b := by
  simp [countMoves, List.filter_append]

theorem countClicks_append (a b : List Event) :
    countClicks (a ++ b) = countClicks a + countClicks b := by
  simp [countClicks, List.filter_append]

theorem sleepsOf_append (a b : List Event) :
    sleepsOf (a ++ b) = sleepsOf a ++ sleepsOf b := by
  simp [sleepsOf, List.filterMap_append]

theorem moveTargets_append (a b : List Event) :
    moveTargets (a ++ b) = moveTargets a ++ moveTargets b := by
  simp [moveTargets, List.filterMap_append]

theorem countMoves_iterBlocks (cfg : KeepActiveConfig) (mouse : MouseModel)
    (randint : ℕ → ℤ → ℤ → ℤ) (base k : ℕ) :
    countMoves (iterBlocks cfg mouse randint base k) = k := by
  induction k with
  | zero => simp [iterBlocks_zero, countMoves]
  | succ k ih =>
    rw [iterBlocks_succ, countMoves_append, ih,
      KeepActiveController.countMoves_run_iteration]

theorem countClicks_iterBlocks (cfg : KeepActiveConfig) (mouse : MouseModel)
    (randint : ℕ → ℤ → ℤ → ℤ) (base k : ℕ) :
    countClicks (iterBlocks cfg mouse randint base k) = k := by
  induction k with
  | zero => simp [iterBlocks_zero, countClicks]
  | succ k ih =>
    rw [iterBlocks_succ, countClicks_append, ih,
      KeepActiveController.countClicks_run_iteration]

theorem countMoves_logEvents (cfg : KeepActiveConfig) (m : String) :
    countMoves (KeepActiveController.logEvents cfg m) = 0 := by
  simp [countMoves, KeepActiveController.filter_logEvents, isMoveTo]

theorem countClicks_logEvents (cfg : KeepActiveConfig) (m : String) :
    countClicks (KeepActiveController.logEvents cfg m) = 0 := by
  simp [countClicks, KeepActiveController.filter_logEvents, isDoubleClick]

theorem sleepsOf_logEvents (cfg : KeepActiveConfig) (m : String) :
    sleepsOf (KeepActiveController.logEvents cfg m) = [] := by
  simp [sleepsOf, KeepActiveController.filterMap_logEvents]

theorem moveTargets_logEvents (cfg : KeepActiveConfig) (m : String) :
    moveTargets (KeepActiveController.logEvents cfg m) = [] := by
  simp [moveTargets, KeepActiveController.filterMap_logEvents]

/-- C1: for every positive `n` and every controller whose capability provider
and sleep primitive never raise, `run(max_iterations = n)` issues exactly `n`
`move_to` commands and exactly `n` `double_click` commands to the capability
provider and then returns normally; and because `run()` resets the iteration
counter to 0 at its start, the whole run is independent of the controller
state left behind by any earlier `run()`, so this holds on every (also
repeated) invocation. -/
theorem claimC1_bounded_run_counts (cfg : KeepActiveConfig) (mouse : MouseModel)
    (randint : ℕ → ℤ → ℤ → ℤ) (n : ℕ) (hn : 0 < n) (fuel : ℕ) (hfuel : n ≤ fuel)
    (s0 s1 : CtrlState) :
    countMoves (KeepActiveController.run cfg mouse randint noExc noStop
      (some (n : ℤ)) fuel s0).1 = n ∧
    countClicks (KeepActiveController.run cfg mouse randint noExc noStop
      (some (n : ℤ)) fuel s0).1 = n ∧
    (KeepActiveController.run cfg mouse randint noExc noStop
      (some (n : ℤ)) fuel s0).2.1 = some RunOutcome.normal ∧
    KeepActiveController.run cfg mouse randint noExc noStop (some (n : ℤ)) fuel s0 =
      KeepActiveController.run cfg mouse randint noExc noStop (some (n : ℤ)) fuel s1 := by
  unfold KeepActiveController.run
  rw [KeepActiveController.runLoop_normal cfg mouse randint n fuel
    { running := true, iteration := 0 } rfl hn (by omega)]
  refine ⟨?_, ?_, rfl, rfl⟩
  · rw [countMoves_append, countMoves_append, KeepActiveController.countMoves_setupEvents,
      countMoves_iterBlocks, countMoves_logEvents]
    dsimp only
    omega
  · rw [countClicks_append, countClicks_append, KeepActiveController.countClicks_setupEvents,
      countClicks_iterBlocks, countClicks_logEvents]
    dsimp only
    omega

/-- A provider model used to instantiate claims at concrete inputs. -/
def wMouse : MouseModel :=
  { posStream := fun _ => { x := 0, y := 0 }, screen := { width := 800, height := 600 } }

/-- A `randint` oracle stream that always returns the lower bound. -/
def wRand : ℕ → ℤ → ℤ → ℤ := fun _ a _ => a

theorem claimC1_bounded_run_counts_witness :
    countMoves (KeepActiveController.run defaultConfig wMouse wRand noExc noStop
      (some ((2 : ℕ) : ℤ)) 2 { running := false, iteration := 7 }).1 = 2 ∧
    countClicks (KeepActiveController.run defaultConfig wMouse wRand noExc noStop
      (some ((2 : ℕ) : ℤ)) 2 { running := false, iteration := 7 }).1 = 2 ∧
    (KeepActiveController.run defaultConfig wMouse wRand noExc noStop
      (some ((2 : ℕ) : ℤ)) 2 { running := false, iteration := 7 }).2.1 =
      some RunOutcome.normal ∧
    KeepActiveController.run defaultConfig wMouse wRand noExc noStop
      (some ((2 : ℕ) : ℤ)) 2 { running := false, iteration := 7 } =
      KeepActiveController.run defaultConfig wMouse wRand noExc noStop
        (some ((2 : ℕ) : ℤ)) 2 { running := true, iteration := 3 } :=
  claimC1_bounded_run_counts defaultConfig wMouse wRand 2 (by decide) 2 (by decide)
    { running := false, iteration := 7 } { running := true, iteration := 3 }

theorem runLoop_maxzero (cfg : KeepActiveConfig) (mouse : MouseModel)
    (randint : ℕ → ℤ → ℤ → ℤ) (fuel : ℕ) (hf : 1 ≤ fuel) :
    KeepActiveController.runLoop cfg mouse randint noExc noStop (some 0) fuel
      { running := true, iteration := 0 } =
      (KeepActiveController.run_iteration cfg mouse randint 0 ++
         KeepActiveController.logEvents cfg
           ("\nCompleted " ++ toString (0 : ℤ) ++ " iterations"),
       some RunOutcome.normal, { running := true, iteration := 1 }) := by
  obtain ⟨f, rfl⟩ : ∃ f, fuel = f + 1 := ⟨fuel - 1, by omega⟩
  rw [KeepActiveController.runLoop]
  norm_num [noExc, noStop]

/-- C10: `run(max_iterations = 0)` with collaborators that never raise still
performs exactly one complete iteration — one random-wait sleep, one `move_to`,
one `double_click`, one post-click sleep — before returning normally, because
the `max_iterations` bound is only checked after an iteration has run. -/
theorem claimC10_zero_max_iterations_runs_once (cfg : KeepActiveConfig)
    (mouse : MouseModel) (randint : ℕ → ℤ → ℤ → ℤ) (fuel : ℕ) (hf : 1 ≤ fuel)
    (s0 : CtrlState) :
    countMoves (KeepActiveController.run cfg mouse randint noExc noStop
      (some 0) fuel s0).1 = 1 ∧
    countClicks (KeepActiveController.run cfg mouse randint noExc noStop
      (some 0) fuel s0).1 = 1 ∧
    sleepsOf (KeepActiveController.run cfg mouse randint noExc noStop
      (some 0) fuel s0).1 =
      [((cfg.get_random_wait_time (randint 0) : ℤ) : ℚ), cfg.post_click_pause] ∧
    (KeepActiveController.run cfg mouse randint noExc noStop
      (some 0) fuel s0).2.1 = some RunOutcome.normal := by
  unfold KeepActiveController.run
  rw [runLoop_maxzero cfg mouse randint fuel hf]
  refine ⟨?_, ?_, ?_, rfl⟩
  · rw [countMoves_append, countMoves_append,
      KeepActiveController.countMoves_setupEvents,
      KeepActiveController.countMoves_run_iteration, countMoves_logEvents]
  · rw [countClicks_append, countClicks_append,
      KeepActiveController.countClicks_setupEvents,
      KeepActiveController.countClicks_run_iteration, countClicks_logEvents]
  · rw [sleepsOf_append, sleepsOf_append, sleepsOf_logEvents,
      KeepActiveController.sleepsOf_setupEvents,
      KeepActiveController.sleepsOf_run_iteration]
    simp

theorem claimC10_zero_max_iterations_runs_once_witness :
    countMoves (KeepActiveController.run defaultConfig wMouse wRand noExc noStop
      (some 0) 1 { running := false, iteration := 0 }).1 = 1 ∧
    countClicks (KeepActiveController.run defaultConfig wMouse wRand noExc noStop
      (some 0) 1 { running := false, iteration := 0 }).1 = 1 ∧
    sleepsOf (KeepActiveController.run defaultConfig wMouse wRand noExc noStop
      (some 0) 1 { running := false, iteration := 0 }).1 =
      [((defaultConfig.get_random_wait_time (wRand 0) : ℤ) : ℚ),
       defaultConfig.post_click_pause] ∧
    (KeepActiveController.run defaultConfig wMouse wRand noExc noStop
      (some 0) 1 { running := false, iteration := 0 }).2.1 =
      some RunOutcome.normal :=
  claimC10_zero_max_iterations_runs_once defaultConfig wMouse wRand 1 (by decide)
    { running := false, iteration := 0 }

/-- C4: the derived center of every `ScreenSize` is the `Position`
`(width // 2, height // 2)` by integer floor division; in particular a
1920x1080 screen yields `(960, 540)` and a 1921x1081 screen also yields
`(960, 540)`. -/
theorem claimC4_screen_center_floor_division :
    (∀ w h : ℤ, ScreenSize.center { width := w, height := h } =
      { x := w.fdiv 2, y := h.fdiv 2 }) ∧
    ScreenSize.center { width := 1920, height := 1080 } = { x := 960, y := 540 } ∧
    ScreenSize.center { width := 1921, height := 1081 } = { x := 960, y := 540 } := by
  refine ⟨fun w h => rfl, by decide, by decide⟩

/-- C3: for every validly constructed configuration (`min_wait ≤ max_wait`,
both non-negative) and every random source honouring the `randint` contract,
`get_random_wait_time` returns an integer in the inclusive range
`[min_wait_seconds, max_wait_seconds]`; and when both bounds equal `k`, the
call returns exactly `k`. -/
theorem claimC3_random_wait_in_range (cfg : KeepActiveConfig) (r : ℤ → ℤ → ℤ)
    (hr : RandintOk r) (_h0 : 0 ≤ cfg.min_wait_seconds)
    (hle : cfg.min_wait_seconds ≤ cfg.max_wait_seconds) :
    (cfg.min_wait_seconds ≤ cfg.get_random_wait_time r ∧
     cfg.get_random_wait_time r ≤ cfg.max_wait_seconds) ∧
    (∀ k : ℤ, cfg.min_wait_seconds = k → cfg.max_wait_seconds = k →
      cfg.get_random_wait_time r = k) := by
  have h := hr cfg.min_wait_seconds cfg.max_wait_seconds hle
  refine ⟨h, fun k hmin hmax => ?_⟩
  unfold KeepActiveConfig.get_random_wait_time at h ⊢
  rw [hmin, hmax] at h ⊢
  omega

/-- A configuration with a single-point wait range, for witnesses. -/
def pointConfig : KeepActiveConfig :=
  { min_wait_seconds := 42, max_wait_seconds := 42,
    mouse_move_duration := 0, post_click_pause := 0,
    enable_failsafe := true, use_screen_center := true, verbose := false }

theorem claimC3_random_wait_in_range_witness :
    (pointConfig.min_wait_seconds ≤ pointConfig.get_random_wait_time (fun a _ => a) ∧
     pointConfig.get_random_wait_time (fun a _ => a) ≤ pointConfig.max_wait_seconds) ∧
    (∀ k : ℤ, pointConfig.min_wait_seconds = k → pointConfig.max_wait_seconds = k →
      pointConfig.get_random_wait_time (fun a _ => a) = k) :=
  claimC3_random_wait_in_range pointConfig (fun a _ => a)
    (fun a _ h => ⟨le_refl a, h⟩) (by decide) (by decide)

/-- C2: constructing a configuration fails if and only if one of the four
timing fields is negative or `min_wait > max_wait` (with no instance existing
on failure — `mk?` yields no `KeepActiveConfig` in the error case); equal
waits with non-negative fields succeed; `min_wait=60, max_wait=30` fails with
a message containing "greater than"; a negative timing field fails with a
message containing "negative". -/
theorem claimC2_config_validation (minW maxW : ℤ) (mmd pcp : ℚ) (ef usc vb : Bool) :
    (configOk (KeepActiveConfig.mk? minW maxW mmd pcp ef usc vb) = false ↔
      (minW < 0 ∨ maxW < 0 ∨ mmd < 0 ∨ pcp < 0 ∨ minW > maxW)) ∧
    (minW = maxW → 0 ≤ minW → 0 ≤ mmd → 0 ≤ pcp →
      configOk (KeepActiveConfig.mk? minW maxW mmd pcp ef usc vb) = true) ∧
    errContains (KeepActiveConfig.mk? 60 30 (1/2) (1/2) true true true)
      "greater than" = true ∧
    errContains (KeepActiveConfig.mk? (-1) 60 (1/2) (1/2) true true true)
      "negative" = true := by
  refine ⟨?_, ?_, ?_, ?_⟩
  · unfold KeepActiveConfig.mk? configOk
    split_ifs with h1 h2 h3 h4 h5 <;> simp <;>
      first
        | tauto
        | exact ⟨not_lt.mp h1, not_lt.mp h2, not_lt.mp h3, not_lt.mp h4,
            not_lt.mp h5⟩
  · intro heq h0 hmmd hpcp
    unfold KeepActiveConfig.mk? configOk
    split_ifs with h1 h2 h3 h4 h5 <;> first
      | rfl
      | (exfalso; omega)
      | (exfalso; exact absurd hmmd (not_le.mpr h3))
      | (exfalso; exact absurd hpcp (not_le.mpr h4))
  · have hmk : KeepActiveConfig.mk? 60 30 (1/2) (1/2) true true true =
        Except.error ("min_wait_seconds (" ++ toString (60 : ℤ) ++
          ") cannot be greater than max_wait_seconds (" ++ toString (30 : ℤ) ++ ")") := by
      unfold KeepActiveConfig.mk?
      norm_num
    rw [hmk]
    decide
  · have hmk : KeepActiveConfig.mk? (-1) 60 (1/2) (1/2) true true true =
        Except.error "min_wait_seconds cannot be negative" := by
      unfold KeepActiveConfig.mk?
      norm_num
    rw [hmk]
    decide

theorem claimC2_config_validation_witness :
    configOk (KeepActiveConfig.mk? 5 5 0 0 true true true) = true :=
  (claimC2_config_validation 5 5 0 0 true true true).2.1 rfl (by decide)
    (by decide) (by decide)

theorem recordedEffects_logEvents (cfg : KeepActiveConfig) (m : String) :
    recordedEffects (KeepActiveController.logEvents cfg m) = [] := by
  simp [recordedEffects, KeepActiveController.filter_logEvents, isRecordedEffect]

theorem recordedEffects_append (a b : List Event) :
    recordedEffects (a ++ b) = recordedEffects a ++ recordedEffects b := by
  simp [recordedEffects, List.filter_append]

theorem recordedEffects_run_iteration (cfg : KeepActiveConfig)
    (mouse : MouseModel) (randint : ℕ → ℤ → ℤ → ℤ) (i : ℕ) :
    recordedEffects (KeepActiveController.run_iteration cfg mouse randint i) =
      [Event.sleep ((cfg.get_random_wait_time (randint i) : ℤ) : ℚ),
       Event.moveTo (KeepActiveController.calculate_target_position mouse)
         cfg.mouse_move_duration,
       Event.doubleClick, Event.sleep cfg.post_click_pause] := by
  unfold recordedEffects KeepActiveController.run_iteration
    KeepActiveController.perform_activity
  simp [List.filter_append, KeepActiveController.filter_logEvents,
    isRecordedEffect]

/-- C5: one full iteration of `run()` with `min_wait = max_wait = 5`,
`post_click_pause = 0.1`, a provider reporting screen 800x600 and initial
position (50, 50) produces, in this order, exactly: failsafe set once to the
configured value during setup, a sleep of 5 seconds, one `move_to` to
`(400, 300)` with the configured `mouse_move_duration`, one `double_click`,
and a sleep of 0.1 seconds. -/
theorem claimC5_single_iteration_effects (mmd : ℚ) (ef usc vb : Bool)
    (mouse : MouseModel) (randint : ℕ → ℤ → ℤ → ℤ)
    (hr : RandintOk (randint 0))
    (hscreen : mouse.screen = { width := 800, height := 600 })
    (_hpos : mouse.posStream 0 = { x := 50, y := 50 })
    (fuel : ℕ) (hf : 1 ≤ fuel) (s0 : CtrlState) :
    recordedEffects (KeepActiveController.run
      { min_wait_seconds := 5, max_wait_seconds := 5, mouse_move_duration := mmd,
        post_click_pause := 1/10, enable_failsafe := ef,
        use_screen_center := usc, verbose := vb }
      mouse randint noExc noStop (some 1) fuel s0).1 =
      [Event.setFailsafe ef, Event.sleep 5,
       Event.moveTo { x := 400, y := 300 } mmd, Event.doubleClick,
       Event.sleep (1/10)] := by
  have hdraw : randint 0 5 5 = 5 := by
    have h := hr 5 5 (le_refl 5)
    omega
  unfold KeepActiveController.run
  have hrun := KeepActiveController.runLoop_normal
    { min_wait_seconds := 5, max_wait_seconds := 5, mouse_move_duration := mmd,
      post_click_pause := 1/10, enable_failsafe := ef,
      use_screen_center := usc, verbose := vb }
    mouse randint 1 fuel { running := true, iteration := 0 } rfl (by decide)
    (by omega)
  rw [Nat.cast_one] at hrun
  rw [hrun]
  have hblk : iterBlocks
      { min_wait_seconds := 5, max_wait_seconds := 5, mouse_move_duration := mmd,
        post_click_pause := 1/10, enable_failsafe := ef,
        use_screen_center := usc, verbose := vb }
      mouse randint ({ running := true, iteration := 0 } : CtrlState).iteration
      (1 - ({ running := true, iteration := 0 } : CtrlState).iteration) =
      KeepActiveController.run_iteration
        { min_wait_seconds := 5, max_wait_seconds := 5, mouse_move_duration := mmd,
          post_click_pause := 1/10, enable_failsafe := ef,
          use_screen_center := usc, verbose := vb } mouse randint 0 := by
    show iterBlocks _ _ _ 0 1 = _
    rw [iterBlocks_succ_front, iterBlocks_zero]
    simp
  rw [hblk]
  rw [recordedEffects_append, recordedEffects_append,
    KeepActiveController.recordedEffects_setupEvents,
    recordedEffects_run_iteration, recordedEffects_logEvents]
  simp only [KeepActiveConfig.get_random_wait_time, hdraw,
    KeepActiveController.calculate_target_position, hscreen, ScreenSize.center]
  norm_num
  exact ⟨by decide, by decide⟩

/-- The provider of the spec's single-iteration example: screen 800x600,
cursor at (50, 50). -/
def c5Mouse : MouseModel :=
  { posStream := fun _ => { x := 50, y := 50 },
    screen := { width := 800, height := 600 } }

theorem claimC5_single_iteration_effects_witness :
    recordedEffects (KeepActiveController.run
      { min_wait_seconds := 5, max_wait_seconds := 5, mouse_move_duration := 0,
        post_click_pause := 1/10, enable_failsafe := true,
        use_screen_center := true, verbose := true }
      c5Mouse wRand noExc noStop (some 1) 1 { running := false, iteration := 0 }).1 =
      [Event.setFailsafe true, Event.sleep 5,
       Event.moveTo { x := 400, y := 300 } 0, Event.doubleClick,
       Event.sleep (1/10)] :=
  claimC5_single_iteration_effects 0 true true true c5Mouse wRand
    (fun a _ h => ⟨le_refl a, h⟩) rfl rfl 1 (by decide)
    { running := false, iteration := 0 }

theorem moveTargets_excEvents (cfg : KeepActiveConfig) (e : PyExc) :
    moveTargets (KeepActiveController.excEvents cfg e) = [] := by
  cases e <;> simp [KeepActiveController.excEvents, moveTargets_logEvents]

theorem moveTargets_runLoop_pair (cfg₁ cfg₂ : KeepActiveConfig)
    (m₁ m₂ : MouseModel) (hscreen : m₁.screen = m₂.screen)
    (randint : ℕ → ℤ → ℤ → ℤ) (exc : ℕ → Option PyExc) (stopAt : ℕ → Bool)
    (maxIter : Option ℤ) :
    ∀ fuel : ℕ, ∀ s : CtrlState,
    moveTargets (KeepActiveController.runLoop cfg₁ m₁ randint exc stopAt
      maxIter fuel s).1 =
    moveTargets (KeepActiveController.runLoop cfg₂ m₂ randint exc stopAt
      maxIter fuel s).1 := by
  intro fuel
  induction fuel with
  | zero =>
    intro s
    by_cases h : s.running <;> simp [KeepActiveController.runLoop, h, moveTargets]
  | succ fuel ih =>
    intro s
    by_cases h : s.running
    · rw [KeepActiveController.runLoop, KeepActiveController.runLoop]
      simp only [h, if_true]
      cases hexc : exc s.iteration with
      | some e => simp [moveTargets_excEvents]
      | none =>
        cases maxIter with
        | some m =>
          by_cases hm : m ≤ ((s.iteration + 1 : ℕ) : ℤ)
          · simp only [hm, if_true]
            rw [moveTargets_append, moveTargets_append,
              KeepActiveController.moveTargets_run_iteration,
              KeepActiveController.moveTargets_run_iteration,
              moveTargets_logEvents, moveTargets_logEvents, hscreen]
          · simp only [hm, if_false]
            rw [moveTargets_append, moveTargets_append,
              KeepActiveController.moveTargets_run_iteration,
              KeepActiveController.moveTargets_run_iteration, hscreen, ih]
        | none =>
          rw [moveTargets_append, moveTargets_append,
            KeepActiveController.moveTargets_run_iteration,
            KeepActiveController.moveTargets_run_iteration, hscreen, ih]
    · rw [KeepActiveController.runLoop_halted _ _ _ _ _ _ _ s (by simpa using h),
        KeepActiveController.runLoop_halted _ _ _ _ _ _ _ s (by simpa using h)]

theorem moveTargets_runLoop_mem (cfg : KeepActiveConfig) (mouse : MouseModel)
    (randint : ℕ → ℤ → ℤ → ℤ) (exc : ℕ → Option PyExc) (stopAt : ℕ → Bool)
    (maxIter : Option ℤ) :
    ∀ fuel : ℕ, ∀ s : CtrlState, ∀ p : Position,
    p ∈ moveTargets (KeepActiveController.runLoop cfg mouse randint exc stopAt
      maxIter fuel s).1 → p = mouse.screen.center := by
  intro fuel
  induction fuel with
  | zero =>
    intro s p hp
    by_cases h : s.running <;>
      simp [KeepActiveController.runLoop, h, moveTargets] at hp
  | succ fuel ih =>
    intro s p hp
    by_cases h : s.running
    · rw [KeepActiveController.runLoop] at hp
      simp only [h, if_true] at hp
      cases hexc : exc s.iteration with
      | some e =>
        rw [hexc] at hp
        simp [moveTargets_excEvents] at hp
      | none =>
        rw [hexc] at hp
        cases maxIter with
        | some m =>
          by_cases hm : m ≤ ((s.iteration + 1 : ℕ) : ℤ)
          · simp only [hm, if_true] at hp
            rw [moveTargets_append,
              KeepActiveController.moveTargets_run_iteration,
              moveTargets_logEvents] at hp
            simpa using hp
          · simp only [hm, if_false] at hp
            rw [moveTargets_append,
              KeepActiveController.moveTargets_run_iteration] at hp
            rcases List.mem_append.mp hp with h1 | h2
            · simpa using h1
            · exact ih _ p h2
        | none =>
          rw [moveTargets_append,
            KeepActiveController.moveTargets_run_iteration] at hp
          rcases List.mem_append.mp hp with h1 | h2
          · simpa using h1
          · exact ih _ p h2
    · rw [KeepActiveController.runLoop_halted _ _ _ _ _ _ _ s
        (by simpa using h)] at hp
      simp [moveTargets] at hp

/-- C6: the target position passed to `move_to` depends only on the screen
size the capability provider reports: two runs whose providers report the same
screen size but differ in the cursor positions `get_position` returns and/or
in the configuration's `use_screen_center` flag produce identical `move_to`
target sequences, and every target is the screen center (the queried cursor
position influences only the diagnostic log line). -/
theorem claimC6_target_position_only_screen (minW maxW : ℤ) (mmd pcp : ℚ)
    (ef vb usc₁ usc₂ : Bool) (m₁ m₂ : MouseModel)
    (hscreen : m₁.screen = m₂.screen) (randint : ℕ → ℤ → ℤ → ℤ)
    (exc : ℕ → Option PyExc) (stopAt : ℕ → Bool) (maxIter : Option ℤ)
    (fuel : ℕ) (s0 : CtrlState) :
    moveTargets (KeepActiveController.run
      { min_wait_seconds := minW, max_wait_seconds := maxW,
        mouse_move_duration := mmd, post_click_pause := pcp,
        enable_failsafe := ef, use_screen_center := usc₁, verbose := vb }
      m₁ randint exc stopAt maxIter fuel s0).1 =
    moveTargets (KeepActiveController.run
      { min_wait_seconds := minW, max_wait_seconds := maxW,
        mouse_move_duration := mmd, post_click_pause := pcp,
        enable_failsafe := ef, use_screen_center := usc₂, verbose := vb }
      m₂ randint exc stopAt maxIter fuel s0).1 ∧
    (∀ p : Position,
      p ∈ moveTargets (KeepActiveController.run
        { min_wait_seconds := minW, max_wait_seconds := maxW,
          mouse_move_duration := mmd, post_click_pause := pcp,
          enable_failsafe := ef, use_screen_center := usc₁, verbose := vb }
        m₁ randint exc stopAt maxIter fuel s0).1 → p = m₁.screen.center) := by
  unfold KeepActiveController.run
  constructor
  · rw [moveTargets_append, moveTargets_append,
      KeepActiveController.moveTargets_setupEvents,
      KeepActiveController.moveTargets_setupEvents,
      moveTargets_runLoop_pair _
        { min_wait_seconds := minW, max_wait_seconds := maxW,
          mouse_move_duration := mmd, post_click_pause := pcp,
          enable_failsafe := ef, use_screen_center := usc₂, verbose := vb }
        m₁ m₂ hscreen]
  · intro p hp
    rw [moveTargets_append,
      KeepActiveController.moveTargets_setupEvents] at hp
    exact moveTargets_runLoop_mem _ m₁ randint exc stopAt maxIter fuel
      { running := true, iteration := 0 } p (by simpa using hp)

/-- A second provider for the C6 witness: same screen as `wMouse`, different
cursor positions. -/
def wMouse2 : MouseModel :=
  { posStream := fun i => { x := (i : ℤ), y := 99 },
    screen := { width := 800, height := 600 } }

theorem claimC6_target_position_only_screen_witness :
    moveTargets (KeepActiveController.run
      { min_wait_seconds := 30, max_wait_seconds := 60,
        mouse_move_duration := 0, post_click_pause := 0,
        enable_failsafe := true, use_screen_center := true, verbose := true }
      wMouse wRand noExc noStop (some 2) 2 { running := false, iteration := 0 }).1 =
    moveTargets (KeepActiveController.run
      { min_wait_seconds := 30, max_wait_seconds := 60,
        mouse_move_duration := 0, post_click_pause := 0,
        enable_failsafe := true, use_screen_center := false, verbose := true }
      wMouse2 wRand noExc noStop (some 2) 2 { running := false, iteration := 0 }).1 ∧
    (∀ p : Position,
      p ∈ moveTargets (KeepActiveController.run
        { min_wait_seconds := 30, max_wait_seconds := 60,
          mouse_move_duration := 0, post_click_pause := 0,
          enable_failsafe := true, use_screen_center := true, verbose := true }
        wMouse wRand noExc noStop (some 2) 2
        { running := false, iteration := 0 }).1 → p = wMouse.screen.center) :=
  claimC6_target_position_only_screen 30 60 0 0 true true true false
    wMouse wMouse2 rfl wRand noExc noStop (some 2) 2
    { running := false, iteration := 0 }

theorem runLoop_exc (cfg : KeepActiveConfig) (mouse : MouseModel)
    (randint : ℕ → ℤ → ℤ → ℤ) (exc : ℕ → Option PyExc) (e : PyExc) :
    ∀ k fuel : ℕ, ∀ s : CtrlState, s.running = true →
    (∀ j : ℕ, j < k → exc (s.iteration + j) = none) →
    exc (s.iteration + k) = some e → k < fuel →
    KeepActiveController.runLoop cfg mouse randint exc noStop none fuel s =
      (iterBlocks cfg mouse randint s.iteration k ++
         KeepActiveController.excEvents cfg e,
       some (KeepActiveController.excOutcome e),
       { running := true, iteration := s.iteration + k }) := by
  intro k
  induction k with
  | zero =>
    intro fuel s hrun hnone hhit hk
    obtain ⟨f, rfl⟩ : ∃ f, fuel = f + 1 := ⟨fuel - 1, by omega⟩
    obtain ⟨sr, si⟩ := s
    simp only at hrun
    subst hrun
    rw [KeepActiveController.runLoop]
    simp only [if_true]
    rw [show si + 0 = si from rfl] at hhit
    rw [hhit, iterBlocks_zero]
    simp
  | succ k ih =>
    intro fuel s hrun hnone hhit hk
    obtain ⟨f, rfl⟩ : ∃ f, fuel = f + 1 := ⟨fuel - 1, by omega⟩
    obtain ⟨sr, si⟩ := s
    simp only at hrun
    subst hrun
    rw [KeepActiveController.runLoop]
    simp only [if_true]
    have h0 : exc si = none := by
      have := hnone 0 (by omega)
      simpa using this
    rw [h0]
    simp only [noStop, Bool.not_false, Bool.and_true]
    rw [ih f { running := true, iteration := si + 1 } rfl
      (fun j hj => by
        have := hnone (j + 1) (by omega)
        rw [show si + (j + 1) = si + 1 + j by omega] at this
        exact this)
      (by
        rw [show si + 1 + k = si + (k + 1) by omega]
        exact hhit)
      (by omega)]
    dsimp only
    rw [show si + 1 + k = si + (k + 1) by omega]
    rw [iterBlocks_succ_front]
    simp

/-- C7: `run()` terminates the process with exit status 0 when a user
interrupt (`KeyboardInterrupt`) occurs during the loop, after logging a stop
message; it terminates with exit status 1 when any other exception is raised
by a collaborator during an iteration, after logging the error; and it
returns normally when `max_iterations` is reached without error. -/
theorem claimC7_exit_statuses :
    (∀ (cfg : KeepActiveConfig) (mouse : MouseModel)
       (randint : ℕ → ℤ → ℤ → ℤ) (exc : ℕ → Option PyExc)
       (k fuel : ℕ) (s0 : CtrlState),
       (∀ j : ℕ, j < k → exc j = none) →
       exc k = some PyExc.keyboardInterrupt → k < fuel →
       (KeepActiveController.run cfg mouse randint exc noStop none fuel s0).2.1 =
         some (RunOutcome.exited 0) ∧
       (KeepActiveController.run cfg mouse randint exc noStop none fuel s0).1 =
         KeepActiveController.setupEvents cfg ++
           (iterBlocks cfg mouse randint 0 k ++
            KeepActiveController.logEvents cfg "\n\nScript stopped by user")) ∧
    (∀ (cfg : KeepActiveConfig) (mouse : MouseModel)
       (randint : ℕ → ℤ → ℤ → ℤ) (exc : ℕ → Option PyExc) (msg : String)
       (k fuel : ℕ) (s0 : CtrlState),
       (∀ j : ℕ, j < k → exc j = none) →
       exc k = some (PyExc.other msg) → k < fuel →
       (KeepActiveController.run cfg mouse randint exc noStop none fuel s0).2.1 =
         some (RunOutcome.exited 1) ∧
       (KeepActiveController.run cfg mouse randint exc noStop none fuel s0).1 =
         KeepActiveController.setupEvents cfg ++
           (iterBlocks cfg mouse randint 0 k ++
            KeepActiveController.logEvents cfg ("\nError: " ++ msg))) ∧
    (∀ (cfg : KeepActiveConfig) (mouse : MouseModel)
       (randint : ℕ → ℤ → ℤ → ℤ) (n fuel : ℕ) (s0 : CtrlState),
       0 < n → n ≤ fuel →
       (KeepActiveController.run cfg mouse randint noExc noStop
         (some (n : ℤ)) fuel s0).2.1 = some RunOutcome.normal) := by
  refine ⟨?_, ?_, ?_⟩
  · intro cfg mouse randint exc k fuel s0 hnone hhit hk
    unfold KeepActiveController.run
    rw [runLoop_exc cfg mouse randint exc PyExc.keyboardInterrupt k fuel
      { running := true, iteration := 0 } rfl
      (fun j hj => by simpa using hnone j hj) (by simpa using hhit) hk]
    exact ⟨rfl, rfl⟩
  · intro cfg mouse randint exc msg k fuel s0 hnone hhit hk
    unfold KeepActiveController.run
    rw [runLoop_exc cfg mouse randint exc (PyExc.other msg) k fuel
      { running := true, iteration := 0 } rfl
      (fun j hj => by simpa using hnone j hj) (by simpa using hhit) hk]
    exact ⟨rfl, rfl⟩
  · intro cfg mouse randint n fuel s0 hn hfuel
    unfold KeepActiveController.run
    rw [KeepActiveController.runLoop_normal cfg mouse randint n fuel
      { running := true, iteration := 0 } rfl hn (by omega)]

/-- A collaborator behaviour raising `KeyboardInterrupt` immediately. -/
def interruptNow : ℕ → Option PyExc := fun _ => some PyExc.keyboardInterrupt

/-- A collaborator behaviour raising a generic error immediately. -/
def errorNow : ℕ → Option PyExc := fun _ => some (PyExc.other "no display")

theorem claimC7_exit_statuses_witness :
    ((KeepActiveController.run defaultConfig wMouse wRand interruptNow noStop
        none 1 { running := false, iteration := 0 }).2.1 =
      some (RunOutcome.exited 0) ∧
     (KeepActiveController.run defaultConfig wMouse wRand interruptNow noStop
        none 1 { running := false, iteration := 0 }).1 =
      KeepActiveController.setupEvents defaultConfig ++
        (iterBlocks defaultConfig wMouse wRand 0 0 ++
         KeepActiveController.logEvents defaultConfig
           "\n\nScript stopped by user")) ∧
    ((KeepActiveController.run defaultConfig wMouse wRand errorNow noStop
        none 1 { running := false, iteration := 0 }).2.1 =
      some (RunOutcome.exited 1) ∧
     (KeepActiveController.run defaultConfig wMouse wRand errorNow noStop
        none 1 { running := false, iteration := 0 }).1 =
      KeepActiveController.setupEvents defaultConfig ++
        (iterBlocks defaultConfig wMouse wRand 0 0 ++
         KeepActiveController.logEvents defaultConfig
           ("\nError: " ++ "no display"))) ∧
    (KeepActiveController.run defaultConfig wMouse wRand noExc noStop
        (some ((3 : ℕ) : ℤ)) 3 { running := false, iteration := 0 }).2.1 =
      some RunOutcome.normal :=
  ⟨claimC7_exit_statuses.1 defaultConfig wMouse wRand interruptNow 0 1
      { running := false, iteration := 0 }
      (fun j hj => absurd hj (Nat.not_lt_zero j)) rfl (by decide),
   claimC7_exit_statuses.2.1 defaultConfig wMouse wRand errorNow "no display" 0 1
      { running := false, iteration := 0 }
      (fun j hj => absurd hj (Nat.not_lt_zero j)) rfl (by decide),
   claimC7_exit_statuses.2.2 defaultConfig wMouse wRand 3 3
      { running := false, iteration := 0 } (by decide) (by decide)⟩

/-- C8: `stop()` immediately sets the controller's running flag to false (a
subsequent read returns false with no intervening iteration), a loop whose
flag reads false never begins another iteration (it exits at the loop head
with no further events), and when `stop()` is delivered while an iteration is
in flight that iteration completes in full and the loop exits normally at the
next iteration boundary. -/
theorem claimC8_stop_cooperative :
    (∀ s : CtrlState, (KeepActiveController.stop s).running = false) ∧
    (∀ (cfg : KeepActiveConfig) (mouse : MouseModel)
       (randint : ℕ → ℤ → ℤ → ℤ) (exc : ℕ → Option PyExc) (stopAt : ℕ → Bool)
       (maxIter : Option ℤ) (fuel : ℕ) (s : CtrlState), s.running = false →
       KeepActiveController.runLoop cfg mouse randint exc stopAt maxIter fuel s =
         ([], some RunOutcome.normal, s)) ∧
    (∀ (cfg : KeepActiveConfig) (mouse : MouseModel)
       (randint : ℕ → ℤ → ℤ → ℤ) (stopAt : ℕ → Bool) (fuel : ℕ)
       (s : CtrlState), s.running = true → stopAt s.iteration = true →
       1 ≤ fuel →
       KeepActiveController.runLoop cfg mouse randint noExc stopAt none fuel s =
         (KeepActiveController.run_iteration cfg mouse randint s.iteration,
          some RunOutcome.normal,
          { running := false, iteration := s.iteration + 1 })) := by
  refine ⟨fun s => rfl, ?_, ?_⟩
  · intro cfg mouse randint exc stopAt maxIter fuel s h
    exact KeepActiveController.runLoop_halted cfg mouse randint exc stopAt
      maxIter fuel s h
  · intro cfg mouse randint stopAt fuel s hrun hstop hf
    obtain ⟨f, rfl⟩ : ∃ f, fuel = f + 1 := ⟨fuel - 1, by omega⟩
    rw [KeepActiveController.runLoop]
    simp only [hrun, if_true, noExc]
    rw [hstop]
    rw [KeepActiveController.runLoop_halted cfg mouse randint noExc stopAt none f
      { running := true && !true, iteration := s.iteration + 1 } rfl]
    simp

/-- A schedule delivering `stop()` during the first iteration. -/
def stopFirst : ℕ → Bool := fun i => i = 0

theorem claimC8_stop_cooperative_witness :
    (KeepActiveController.stop { running := true, iteration := 5 }).running =
      false ∧
    KeepActiveController.runLoop defaultConfig wMouse wRand noExc stopFirst
      (some 9) 4 { running := false, iteration := 2 } =
      ([], some RunOutcome.normal, { running := false, iteration := 2 }) ∧
    KeepActiveController.runLoop defaultConfig wMouse wRand noExc stopFirst
      none 3 { running := true, iteration := 0 } =
      (KeepActiveController.run_iteration defaultConfig wMouse wRand 0,
       some RunOutcome.normal, { running := false, iteration := 0 + 1 }) :=
  ⟨claimC8_stop_cooperative.1 { running := true, iteration := 5 },
   claimC8_stop_cooperative.2.1 defaultConfig wMouse wRand noExc stopFirst
     (some 9) 4 { running := false, iteration := 2 } rfl,
   claimC8_stop_cooperative.2.2 defaultConfig wMouse wRand stopFirst 3
     { running := true, iteration := 0 } rfl (by decide) (by decide)⟩

theorem mainIterEvents_eq_run_iteration (mouse : MouseModel)
    (randint : ℕ → ℤ → ℤ → ℤ) (i : ℕ) :
    LegacyMain.mainIterEvents mouse randint i =
      KeepActiveController.run_iteration defaultConfig mouse randint i := by
  unfold LegacyMain.mainIterEvents KeepActiveController.run_iteration
    KeepActiveController.perform_activity KeepActiveController.logEvents
    KeepActiveConfig.get_random_wait_time
    KeepActiveController.calculate_target_position ScreenSize.center
    Position.str defaultConfig
  simp only [String.append_assoc, if_true]
  rw [← String.append_assoc "Moving mouse from " "(",
    ← String.append_assoc ")" " to ",
    ← String.append_assoc (")" ++ " to ") "("]
  rfl

theorem mainLoop_eq_runLoop (mouse : MouseModel) (randint : ℕ → ℤ → ℤ → ℤ)
    (exc : ℕ → Option PyExc) :
    ∀ fuel i : ℕ,
    LegacyMain.mainLoop mouse randint exc fuel i =
      ((KeepActiveController.runLoop defaultConfig mouse randint exc noStop none
          fuel { running := true, iteration := i }).1,
       (KeepActiveController.runLoop defaultConfig mouse randint exc noStop none
          fuel { running := true, iteration := i }).2.1) := by
  intro fuel
  induction fuel with
  | zero =>
    intro i
    rw [LegacyMain.mainLoop, KeepActiveController.runLoop]
    simp
  | succ fuel ih =>
    intro i
    rw [LegacyMain.mainLoop, KeepActiveController.runLoop]
    dsimp only
    cases hexc : exc i with
    | some e =>
      cases e <;>
        simp [KeepActiveController.excEvents, KeepActiveController.excOutcome,
          KeepActiveController.logEvents, defaultConfig]
    | none =>
      simp only [noStop, Bool.not_false, Bool.and_true, if_true]
      rw [mainIterEvents_eq_run_iteration, ih (i + 1)]

/-- C9: the legacy single-function variant (`main` in `src/main.py`) is
behaviorally equivalent to running the modular controller with the default
configuration and no `max_iterations`: given the same random draws, the same
provider responses and the same collaborator exceptions, both produce the
same sequence of sleeps, the same sequence of provider commands, the same
sequence of output lines, and the same exit status. -/
theorem claimC9_legacy_variant_equivalence (mouse : MouseModel)
    (randint : ℕ → ℤ → ℤ → ℤ) (exc : ℕ → Option PyExc) (fuel : ℕ)
    (s0 : CtrlState) :
    sleepsOf (LegacyMain.main mouse randint exc fuel).1 =
      sleepsOf (KeepActiveController.run defaultConfig mouse randint exc noStop
        none fuel s0).1 ∧
    mouseCmdsOf (LegacyMain.main mouse randint exc fuel).1 =
      mouseCmdsOf (KeepActiveController.run defaultConfig mouse randint exc
        noStop none fuel s0).1 ∧
    printsOf (LegacyMain.main mouse randint exc fuel).1 =
      printsOf (KeepActiveController.run defaultConfig mouse randint exc noStop
        none fuel s0).1 ∧
    (LegacyMain.main mouse randint exc fuel).2 =
      (KeepActiveController.run defaultConfig mouse randint exc noStop none
        fuel s0).2.1 := by
  unfold LegacyMain.main KeepActiveController.run
  rw [mainLoop_eq_runLoop mouse randint exc fuel 0]
  dsimp only
  refine ⟨?_, ?_, ?_, rfl⟩
  · simp [sleepsOf, KeepActiveController.setupEvents,
      KeepActiveController.logEvents, defaultConfig, List.filterMap_append]
  · simp [mouseCmdsOf, isMouseCmd, KeepActiveController.setupEvents,
      KeepActiveController.logEvents, defaultConfig, List.filter_append]
  · simp [printsOf, KeepActiveController.setupEvents,
      KeepActiveController.logEvents, defaultConfig, List.filterMap_append]
